import Mathlib

/-!
# Blaster game (`blaster.c`): shallow embedding of the simulation core

The C program keeps its whole state in global variables and is driven by GLUT
callbacks (timers and keyboard events).  Here the globals are the fields of
`GameState`, every C function is a function on `GameState`, and the pending
`glutTimerFunc` registrations are kept in the field `timers`.

Conventions of the embedding:

* a `float` or `double` value is the rational number it stands for; every
  operation on `float` operands rounds its exact result to binary32 (`f32`) and
  every operation on `double` operands to binary64 (`f64`), to nearest, ties to
  even, as the C code does when each operation is evaluated in the type of its
  operands; an `int` operand of a `float` operation is converted first (`i2f`);
* `int` values are integers; the places where the C code computes on `int`
  (`player_score++`, the spawn formulas) go through `wrap32`, two's complement
  wrap-around on 32 bits;
* `rand()` is an argument of `spawn_enemy` (one value per call in the source);
* `exit(0)` is the result `none` of `handle_keys`;
* the drawing functions only issue OpenGL commands and read the globals, so
  they are the identity on `GameState`.
-/

namespace Blaster

/-! ## Constants and data types -/

/-- The constant `canvas_width` (`#define canvas_width 400`). -/
def canvas_width : Int := 400

/-- The constant `canvas_height` (`#define canvas_height 400`). -/
def canvas_height : Int := 400

/-- The struct `Point`: three `float` coordinates. -/
structure Point where
  x : ℚ
  y : ℚ
  z : ℚ
deriving DecidableEq

/-- The struct `Color`: three `float` channels. -/
structure Color where
  red : ℚ
  green : ℚ
  blue : ℚ
deriving DecidableEq

/-- The struct `Cube`; `movement` is tri-state: 0 none, 1 left, 2 right. -/
structure Cube where
  center : Point
  size : ℚ
  color : Color
  is_alive : Int
  movement : Int
deriving DecidableEq

/-- The functions of the program that are registered with `glutTimerFunc`. -/
inductive Callback where
  | spawn_enemy
  | animate
  | disable_laser
deriving DecidableEq

/-- One pending `glutTimerFunc(millis, callback, value)` registration. -/
structure Timer where
  millis : Int
  callback : Callback
  value : Int
deriving DecidableEq

/-- The global variables of `blaster.c`, and the timers registered with GLUT. -/
structure GameState where
  origin : Point
  z_plane : ℚ
  frame_rate : ℚ
  player_size : ℚ
  enemy_size : ℚ
  player_start : Point
  enemy_start : Point
  bg_color : Color
  player_color : Color
  enemy_color : Color
  player : Cube
  enemy : Cube
  enemy_min_x : Int
  enemy_max_x : Int
  enemy_spawn_x : Int
  enemy_min_time : Int
  enemy_max_time : Int
  enemy_spawn_time : Int
  enemy_total_dist : ℚ
  enemy_total_time : ℚ
  enemy_step_dist : ℚ
  player_total_dist : ℚ
  player_total_time : ℚ
  player_step_dist : ℚ
  is_laser_firing : Int
  player_score : Int
  is_game_over : Int
  timers : List Timer
deriving DecidableEq

/-! ## Machine arithmetic: integers -/

/-- Smallest value of a 32-bit `int`. -/
def INT_MIN : Int := -2147483648

/-- Largest value of a 32-bit `int`. -/
def INT_MAX : Int := 2147483647

/-- Two's complement wrap-around of an integer to the range of a 32-bit `int`. -/
def wrap32 (z : Int) : Int := (z + 2147483648) % 4294967296 - 2147483648

/-- Conversion of an integer to `unsigned int` (the type of `glutTimerFunc`'s
first parameter). -/
def toU32 (z : Int) : Int := z % 4294967296

/-- Conversion of a floating-point value to an integer type: the fractional
part is discarded (truncation toward zero). -/
def truncQ (q : ℚ) : Int := Int.tdiv q.num q.den

/-! ## Machine arithmetic: binary floating point -/

/-- Rounding of the non-negative fraction `n / d` to the nearest natural number,
ties to the even one. -/
def roundNE (n d : Nat) : Nat :=
  if 2 * (n % d) < d then n / d
  else if d < 2 * (n % d) then n / d + 1
  else if (n / d) % 2 = 0 then n / d
  else n / d + 1

/-- Auxiliary function of `log2`, by recursion on the fuel. -/
def log2Fuel : Nat → Nat → Nat
  | 0, _ => 0
  | fuel + 1, n => if n < 2 then 0 else log2Fuel fuel (n / 2) + 1

/-- The position of the highest bit of `n`: `2 ^ log2 n ≤ n < 2 ^ (log2 n + 1)`
for positive `n`. -/
def log2 (n : Nat) : Nat := log2Fuel n n

/-- The exponent of the binade of the positive fraction `n / d`: the integer
`e` with `2 ^ e ≤ n / d < 2 ^ (e + 1)`. -/
def floorLog2 (n d : Nat) : Int :=
  let e0 : Int := (log2 n : Int) - (log2 d : Int)
  if 0 ≤ e0 then
    if d * 2 ^ e0.toNat ≤ n then e0 else e0 - 1
  else
    if d ≤ n * 2 ^ (-e0).toNat then e0 else e0 - 1

/-- Rounding of a rational to the nearest value of the binary floating-point
format with `p` bits of precision whose smallest positive value is
`2 ^ emin`, ties to even.  The exponent is not bounded above (no overflow to
infinity). -/
def roundFloat (p : Nat) (emin : Int) (q : ℚ) : ℚ :=
  let n : Nat := q.num.natAbs
  let d : Nat := q.den
  let u : Int := max (floorLog2 n d - ((p : Int) - 1)) emin
  let v : ℚ :=
    if 0 ≤ u then ((roundNE n (d * 2 ^ u.toNat) * 2 ^ u.toNat : Nat) : ℚ)
    else mkRat (roundNE (n * 2 ^ (-u).toNat) d : Nat) (2 ^ (-u).toNat)
  if q < 0 then -v else v

/-- Rounding to binary32, the type `float`. -/
def f32 (q : ℚ) : ℚ := roundFloat 24 (-149) q

/-- Rounding to binary64, the type `double`. -/
def f64 (q : ℚ) : ℚ := roundFloat 53 (-1074) q

/-- Conversion of an `int` to `float`. -/
def i2f (z : Int) : ℚ := f32 (z : ℚ)

/-- Conversion of an `int` to `double`. -/
def i2d (z : Int) : ℚ := f64 (z : ℚ)

/-- The sum of two `float` values. -/
def fadd (a b : ℚ) : ℚ := f32 (a + b)

/-- The difference of two `float` values. -/
def fsub (a b : ℚ) : ℚ := f32 (a - b)

/-- The product of two `float` values. -/
def fmul (a b : ℚ) : ℚ := f32 (a * b)

/-- The quotient of two `float` values. -/
def fdiv (a b : ℚ) : ℚ := f32 (a / b)

/-- The sum of two `double` values. -/
def dadd (a b : ℚ) : ℚ := f64 (a + b)

/-- The difference of two `double` values. -/
def dsub (a b : ℚ) : ℚ := f64 (a - b)

/-- The product of two `double` values. -/
def dmul (a b : ℚ) : ℚ := f64 (a * b)

/-- The quotient of two `double` values. -/
def ddiv (a b : ℚ) : ℚ := f64 (a / b)

/-- The call `glutTimerFunc(millis, callback, value)`: one more pending timer. -/
def glutTimerFunc (millis : Int) (callback : Callback) (value : Int)
    (s : GameState) : GameState :=
  { s with timers := s.timers ++ [⟨toU32 millis, callback, value⟩] }

/-! ## Utility functions -/

/-- The constructor `make_point`. -/
def make_point (x y z : ℚ) : Point := ⟨x, y, z⟩

/-- The constructor `make_color`. -/
def make_color (red green blue : ℚ) : Color := ⟨red, green, blue⟩

/-- The constructor `make_cube`: the center and the color are copied. -/
def make_cube (center : Point) (size : ℚ) (color : Color) : Cube :=
  { center := center, size := size, color := color, is_alive := 0, movement := 0 }

/-- The function `spawn_enemy`; `r1` and `r2` are the values returned by its two
calls of `rand()`.  The store `enemy->center.x = enemy_spawn_x` converts the
`int` to `float`. -/
def spawn_enemy (r1 r2 : Int) (s : GameState) : GameState :=
  let spawn_x : Int :=
    wrap32 (Int.tmod r1 (wrap32 (wrap32 (s.enemy_max_x + 1) - s.enemy_min_x)) + s.enemy_min_x)
  let spawn_time : Int :=
    wrap32 (Int.tmod r2 (wrap32 (wrap32 (s.enemy_max_time + 1) - s.enemy_min_time))
      + s.enemy_min_time)
  glutTimerFunc spawn_time Callback.spawn_enemy 1
    { s with
      enemy_spawn_x := spawn_x
      enemy :=
        { s.enemy with
          center := { s.enemy.center with y := s.enemy_start.y, x := i2f spawn_x }
          is_alive := 1 }
      enemy_spawn_time := spawn_time }

/-- The function `update_enemy`. -/
def update_enemy (s : GameState) : GameState :=
  if s.enemy.is_alive ≠ 0 then
    let s1 : GameState :=
      { s with
        enemy :=
          { s.enemy with
            center := { s.enemy.center with y := fsub s.enemy.center.y s.enemy_step_dist } } }
    if fsub s1.enemy.center.y (fdiv s1.enemy.size (i2f 2))
        < fsub s1.origin.y (i2f (Int.tdiv canvas_height 2)) then
      { s1 with is_game_over := 1 }
    else s1
  else s

/-- The function `update_player`. -/
def update_player (s : GameState) : GameState :=
  if s.player.movement = 1 ∧
      s.player.center.x ≥
        fadd (fsub s.origin.x (i2f (Int.tdiv canvas_width 2))) s.player.size then
    { s with
      player :=
        { s.player with
          center := { s.player.center with x := fsub s.player.center.x s.player_step_dist } } }
  else if s.player.movement = 2 ∧
      s.player.center.x ≤
        fsub (fadd s.origin.x (i2f (Int.tdiv canvas_width 2))) s.player.size then
    { s with
      player :=
        { s.player with
          center := { s.player.center with x := fadd s.player.center.x s.player_step_dist } } }
  else s

/-- The function `add_point`: `player_score++` on an `int`. -/
def add_point (s : GameState) : GameState :=
  { s with player_score := wrap32 (s.player_score + 1) }

/-- The function `kill_enemy`. -/
def kill_enemy (s : GameState) : GameState :=
  { s with enemy := { s.enemy with is_alive := 0 } }

/-- The function `test_hit`. -/
def test_hit (s : GameState) : GameState :=
  if s.player.center.x < fadd s.enemy.center.x (fdiv s.enemy.size (i2f 2)) ∧
      s.player.center.x > fsub s.enemy.center.x (fdiv s.enemy.size (i2f 2)) then
    add_point (kill_enemy s)
  else s

/-- The function `disable_laser`. -/
def disable_laser (s : GameState) : GameState :=
  { s with is_laser_firing := 0 }

/-- The function `activate_laser`; the delay `1000 * (0.15)` is a `double`
product converted to `unsigned int`. -/
def activate_laser (s : GameState) : GameState :=
  if s.is_laser_firing = 0 then
    glutTimerFunc (truncQ (dmul (i2d 1000) (f64 (15 / 100)))) Callback.disable_laser 1
      (test_hit { s with is_laser_firing := 1 })
  else s

/-! ## Drawing functions and the frame callback -/

/-- The function `draw_all_objects`: OpenGL output only. -/
def draw_all_objects (s : GameState) : GameState := s

/-- The function `draw_game_over`: OpenGL output only. -/
def draw_game_over (s : GameState) : GameState := s

/-- The function `animate`, the frame callback; the delay `1000 * frame_rate` is
a `float` product converted to `unsigned int`. -/
def animate (s : GameState) : GameState :=
  if s.is_game_over = 0 then
    glutTimerFunc (truncQ (fmul (i2f 1000) s.frame_rate)) Callback.animate 1
      (update_player (update_enemy (draw_all_objects s)))
  else draw_game_over s

/-- The function `initial_draw`, the display callback. -/
def initial_draw (r1 r2 : Int) (s : GameState) : GameState :=
  glutTimerFunc (truncQ (fmul (i2f 1000) s.frame_rate)) Callback.animate 1
    (spawn_enemy r1 r2 s)

/-! ## User input functions -/

/-- The function `handle_keys` (key-down); `none` is `exit(0)`.  The first test
is `c == 'h' || c == 'h'` in the source. -/
def handle_keys (c : Char) (_x _y : Int) (s : GameState) : Option GameState :=
  if c = 'h' ∨ c = 'h' then
    some { s with player := { s.player with movement := 1 } }
  else if c = 'l' ∨ c = 'L' then
    some { s with player := { s.player with movement := 2 } }
  else if c = ' ' then
    some (activate_laser s)
  else if c = 'q' ∨ c = 'Q' then
    none
  else some s

/-- The function `handle_keys_up` (key-up). -/
def handle_keys_up (c : Char) (_x _y : Int) (s : GameState) : GameState :=
  if c = 'h' ∨ c = 'h' then
    { s with player := { s.player with movement := 0 } }
  else if c = 'l' ∨ c = 'L' then
    { s with player := { s.player with movement := 0 } }
  else s

/-! ## Initialisation -/

/-- The function `init`: the values of the globals when the event loop starts.
The literals `0.9`, `0.1` and the quotient `1.0 / 30.0` are `double` values
stored into `float` variables; the bounds `enemy_min_x` and `enemy_max_x` are
`double` expressions stored into `int` variables. -/
def init : GameState :=
  let origin := make_point 0 0 0
  let z_plane : ℚ := -15
  let frame_rate : ℚ := f32 (ddiv 1 30)
  let player_size : ℚ := 25
  let enemy_size : ℚ := 25
  let bg_color := make_color 1 1 1
  let player_color := make_color 0 0 0
  let enemy_color := make_color (f32 (f64 (9 / 10))) (f32 (f64 (1 / 10))) (f32 (f64 (1 / 10)))
  let player_start :=
    make_point origin.x
      (fadd (fsub origin.y (i2f (Int.tdiv canvas_height 2))) (fdiv player_size (i2f 2)))
      z_plane
  let enemy_start :=
    make_point origin.x
      (fadd (fadd origin.y (i2f (Int.tdiv canvas_height 2))) (fdiv enemy_size (i2f 2)))
      z_plane
  let player := make_cube player_start 25 player_color
  let enemy := make_cube enemy_start 25 enemy_color
  let enemy_total_dist : ℚ := fsub (i2f canvas_height) enemy.size
  let enemy_total_time : ℚ := 5 / 2
  let player_total_dist : ℚ := fsub (i2f canvas_width) player.size
  let player_total_time : ℚ := 3 / 4
  { origin := origin
    z_plane := z_plane
    frame_rate := frame_rate
    player_size := player_size
    enemy_size := enemy_size
    player_start := player_start
    enemy_start := enemy_start
    bg_color := bg_color
    player_color := player_color
    enemy_color := enemy_color
    player := player
    enemy := enemy
    enemy_min_x := truncQ (dadd (dsub origin.x (ddiv (i2d canvas_width) 2)) (ddiv enemy.size 2))
    enemy_max_x := truncQ (dsub (dadd origin.x (ddiv (i2d canvas_width) 2)) (ddiv enemy.size 2))
    enemy_spawn_x := 0
    enemy_min_time := 2750
    enemy_max_time := 3500
    enemy_spawn_time := 0
    enemy_total_dist := enemy_total_dist
    enemy_total_time := enemy_total_time
    enemy_step_dist := fmul (fdiv enemy_total_dist enemy_total_time) frame_rate
    player_total_dist := player_total_dist
    player_total_time := player_total_time
    player_step_dist := fmul (fdiv player_total_dist player_total_time) frame_rate
    is_laser_firing := 0
    player_score := 0
    is_game_over := 0
    timers := [] }

/-! ## The event loop -/

/-- What `glutMainLoop` can deliver to the program: the display callback, the
three timer callbacks and the two keyboard callbacks. -/
inductive Event where
  | display (r1 r2 : Int)
  | spawn (r1 r2 : Int)
  | tick
  | laser_off
  | key_down (c : Char)
  | key_up (c : Char)

/-- The effect of one event; `none` when the process exits. -/
def step (s : GameState) : Event → Option GameState
  | Event.display r1 r2 => some (initial_draw r1 r2 s)
  | Event.spawn r1 r2 => some (spawn_enemy r1 r2 s)
  | Event.tick => some (animate s)
  | Event.laser_off => some (disable_laser s)
  | Event.key_down c => handle_keys c 0 0 s
  | Event.key_up c => some (handle_keys_up c 0 0 s)

/-- The effect of a sequence of events, delivered one after the other. -/
def run (s : GameState) : List Event → Option GameState
  | [] => some s
  | e :: es => (step s e).bind (fun t => run t es)

/-- The states the program can be in: `init` followed by any events. -/
def Reachable (s : GameState) : Prop := ∃ es : List Event, run init es = some s

/-- The left boundary tested by `update_player`. -/
def left_bound (s : GameState) : ℚ :=
  fadd (fsub s.origin.x (i2f (Int.tdiv canvas_width 2))) s.player.size

/-- The right boundary tested by `update_player`. -/
def right_bound (s : GameState) : ℚ :=
  fsub (fadd s.origin.x (i2f (Int.tdiv canvas_width 2))) s.player.size

/-- The bottom edge of the canvas tested by `update_enemy`. -/
def bottom_edge (s : GameState) : ℚ :=
  fsub s.origin.y (i2f (Int.tdiv canvas_height 2))

/-- The lower edge of the enemy as `update_enemy` computes it from a height. -/
def lower_edge (s : GameState) (y : ℚ) : ℚ :=
  fsub y (fdiv s.enemy.size (i2f 2))

/-- The state after `n` frame ticks in a row. -/
def ticks : Nat → GameState → GameState
  | 0, s => s
  | n + 1, s => animate (ticks n s)

/-! ## States and values used in the statements below -/

/-- The value of `player_step_dist` that `init` stores, about 16.6666679. -/
def player_step : ℚ := 4369067 / 262144

/-- The value of `enemy_step_dist` that `init` stores, about 5.00000048. -/
def enemy_step : ℚ := 10485761 / 2097152

/-- The 23 values that `player.center.x` takes in the program: 0 and what eleven
rounded steps to either side give, up to about 183.33337. -/
def player_grid : List ℚ :=
  [-1501867 / 8192, -10922669 / 65536, -4915201 / 32768, -8738135 / 65536,
    -1911467 / 16384, -6553601 / 65536, -2730667 / 32768, -4369067 / 65536,
    -13107201 / 262144, -4369067 / 131072, -4369067 / 262144, 0,
    4369067 / 262144, 4369067 / 131072, 13107201 / 262144, 4369067 / 65536,
    2730667 / 32768, 6553601 / 65536, 1911467 / 16384, 8738135 / 65536,
    4915201 / 32768, 10922669 / 65536, 1501867 / 8192]

/-- The facts about the player that every event preserves: the constants of
`update_player` keep the values `init` gives them, and the player's x is one
of the values of `player_grid`. -/
def PlayerInv (s : GameState) : Prop :=
  s.origin.x = 0 ∧ s.player.size = 25 ∧ s.player_step_dist = player_step ∧
    s.player.center.x ∈ player_grid

/-- The state after `init`, the display callback (both `rand()` calls giving 0)
and a key-down of `h`. -/
def overshoot_start : GameState :=
  { initial_draw 0 0 init with
    player := { (initial_draw 0 0 init).player with movement := 1 } }

/-- The state `overshoot_start` after eleven frame ticks. -/
def overshoot_state : GameState := ticks 11 overshoot_start

/-- The events that lead from `init` to `overshoot_state`. -/
def overshoot_events : List Event :=
  Event.display 0 0 :: Event.key_down 'h' :: List.replicate 11 Event.tick

/-- The state of `init` with the player put on the left boundary, moving left. -/
def at_left_bound : GameState :=
  { init with
    player := { init.player with center := { init.player.center with x := -175 }, movement := 1 } }

/-- The state of `init` with the player put on the right boundary, moving right. -/
def at_right_bound : GameState :=
  { init with
    player := { init.player with center := { init.player.center with x := 175 }, movement := 2 } }

/-- The state of `init` with the player put beyond the left boundary, moving left. -/
def beyond_left_bound : GameState :=
  { init with
    player := { init.player with center := { init.player.center with x := -180 }, movement := 1 } }

/-- The state of `init` with a live enemy put at height -182.5: its lower edge,
-195, is above the bottom edge -200 by 5, less than `enemy_step_dist`. -/
def near_bottom_state : GameState :=
  { init with
    enemy := { init.enemy with center := { init.enemy.center with y := -365 / 2 }, is_alive := 1 } }

/-- The state 79 frame ticks after a first spawn whose `rand()` calls gave 0. -/
def tick79_state : GameState := ticks 79 (spawn_enemy 0 0 init)

/-- The state of `init` with a live enemy at x = 100 and the player at x = 100. -/
def hit_state : GameState :=
  { init with
    enemy := { init.enemy with center := { init.enemy.center with x := 100 }, is_alive := 1 }
    player := { init.player with center := { init.player.center with x := 100 } } }

/-- The state of `init` with a live enemy at x = 100 and the player at x = 113. -/
def miss_state : GameState :=
  { init with
    enemy := { init.enemy with center := { init.enemy.center with x := 100 }, is_alive := 1 }
    player := { init.player with center := { init.player.center with x := 113 } } }

/-- The events of a first shot: the display callback spawns the enemy at x = 0
(`rand()` giving 187), the space bar fires the laser, the laser timer expires. -/
def first_shot_events : List Event :=
  [Event.display 187 0, Event.key_down ' ', Event.laser_off]

/-- The state after `first_shot_events`: the enemy is dead, the score is 1. -/
def dead_enemy_state : GameState :=
  disable_laser (activate_laser (initial_draw 187 0 init))

/-- The height of the enemy `n` frame ticks after a spawn: `enemy_start.y` of
`init`, 212.5, decremented `n` times by `enemy_step`, each difference rounded
to `float`. -/
def descent_y : Nat → ℚ
  | 0 => 425 / 2
  | n + 1 => fsub (descent_y n) enemy_step

/-- The state `n` frame ticks after the first spawn, for `n` up to 79: the
state after the spawn with the enemy at height `descent_y n` and `n` more
frame timers. -/
def descent_state (r1 r2 : Int) (n : Nat) : GameState :=
  { spawn_enemy r1 r2 init with
    enemy :=
      { (spawn_enemy r1 r2 init).enemy with
        center := { (spawn_enemy r1 r2 init).enemy.center with y := descent_y n } }
    timers :=
      (spawn_enemy r1 r2 init).timers ++ List.replicate n ⟨33, Callback.animate, 1⟩ }

/-- The events that lead from `init` to `tick79_state`. -/
def tick79_events : List Event := Event.spawn 0 0 :: List.replicate 79 Event.tick

/-! ## Theorems -/

/-! ### Iterated ticks and runs -/

/-- Iterated ticks can be unrolled from the first tick as well as from the last. -/
theorem ticks_succ_shift (n : Nat) (s : GameState) : ticks (n + 1) s = ticks n (animate s) := by
  induction n with
  | zero => rfl
  | succ k ih => rw [ticks, ih]; rfl

/-- Delivering `n` tick events is `ticks n`. -/
theorem run_ticks (n : Nat) (s : GameState) :
    run s (List.replicate n Event.tick) = some (ticks n s) := by
  induction n generalizing s with
  | zero => rfl
  | succ k ih =>
    rw [List.replicate_succ, run, step, Option.bind, ih, ticks_succ_shift]

/-! ### The player and the boundaries (C1, C2) -/

/-- The events `overshoot_events` lead from `init` to `overshoot_state`. -/
theorem overshoot_run : run init overshoot_events = some overshoot_state := by
  have h1 : step init (Event.display 0 0) = some (initial_draw 0 0 init) := rfl
  have h2 : step (initial_draw 0 0 init) (Event.key_down 'h') = some overshoot_start := by
    simp [step, handle_keys, overshoot_start]
  rw [overshoot_events, run, h1, Option.bind, run, h2]
  exact run_ticks 11 overshoot_start

theorem overshoot_reachable : Reachable overshoot_state := ⟨overshoot_events, overshoot_run⟩

theorem overshoot_facts :
    overshoot_state.player.center.x = -1501867 / 8192 ∧ left_bound overshoot_state = -175 ∧
      overshoot_state.player_step_dist = player_step := by
  decide!

/-- The boundaries that `update_player` computes from the constants of `init`. -/
theorem bounds_value :
    fadd (fsub 0 (i2f (Int.tdiv canvas_width 2))) 25 = -175 ∧
      fsub (fadd 0 (i2f (Int.tdiv canvas_width 2))) 25 = 175 := by
  decide!

/-- The grid of player positions is closed under the guarded steps of
`update_player`, and lies within one step of the boundaries. -/
theorem player_grid_closed :
    ∀ x ∈ player_grid,
      (x ≥ -175 → fsub x player_step ∈ player_grid) ∧
      (x ≤ 175 → fadd x player_step ∈ player_grid) ∧
      -175 - player_step ≤ x ∧ x ≤ 175 + player_step ∧
      -1501867 / 8192 ≤ x ∧ x ≤ 1501867 / 8192 := by
  decide!

theorem init_inv : PlayerInv init := by
  refine ⟨rfl, rfl, ?_, ?_⟩ <;> decide!

/-- The guard of `update_player` keeps the player on the grid. -/
theorem update_player_inv (s : GameState) (h : PlayerInv s) : PlayerInv (update_player s) := by
  obtain ⟨h0, h1, h2, h3⟩ := h
  have hg := player_grid_closed s.player.center.x h3
  have hL : fadd (fsub s.origin.x (i2f (Int.tdiv canvas_width 2))) s.player.size = -175 := by
    rw [h0, h1]; exact bounds_value.1
  have hR : fsub (fadd s.origin.x (i2f (Int.tdiv canvas_width 2))) s.player.size = 175 := by
    rw [h0, h1]; exact bounds_value.2
  unfold update_player
  rw [hL, hR]
  split_ifs with c1 c2
  · refine ⟨h0, h1, h2, ?_⟩
    show fsub s.player.center.x s.player_step_dist ∈ player_grid
    rw [h2]
    exact hg.1 c1.2
  · refine ⟨h0, h1, h2, ?_⟩
    show fadd s.player.center.x s.player_step_dist ∈ player_grid
    rw [h2]
    exact hg.2.1 c2.2
  · exact ⟨h0, h1, h2, h3⟩

theorem update_enemy_inv (s : GameState) (h : PlayerInv s) : PlayerInv (update_enemy s) := by
  simp only [update_enemy]
  split_ifs <;> exact h

theorem test_hit_inv (s : GameState) (h : PlayerInv s) : PlayerInv (test_hit s) := by
  unfold test_hit
  split_ifs <;> exact h

theorem activate_laser_inv (s : GameState) (h : PlayerInv s) : PlayerInv (activate_laser s) := by
  unfold activate_laser
  split_ifs
  · exact test_hit_inv _ h
  · exact h

theorem animate_inv (s : GameState) (h : PlayerInv s) : PlayerInv (animate s) := by
  unfold animate
  split_ifs
  · exact update_player_inv _ (update_enemy_inv _ h)
  · exact h

/-- Every event preserves `PlayerInv`. -/
theorem step_inv (s t : GameState) (e : Event) (h : PlayerInv s) (hs : step s e = some t) :
    PlayerInv t := by
  cases e with
  | display r1 r2 => simp only [step, Option.some.injEq] at hs; subst hs; exact h
  | spawn r1 r2 => simp only [step, Option.some.injEq] at hs; subst hs; exact h
  | tick => simp only [step, Option.some.injEq] at hs; subst hs; exact animate_inv s h
  | laser_off => simp only [step, Option.some.injEq] at hs; subst hs; exact h
  | key_down c =>
    simp only [step, handle_keys] at hs
    split_ifs at hs
    · simp only [Option.some.injEq] at hs; subst hs; exact h
    · simp only [Option.some.injEq] at hs; subst hs; exact h
    · simp only [Option.some.injEq] at hs; subst hs; exact activate_laser_inv s h
    · simp only [Option.some.injEq] at hs; subst hs; exact h
  | key_up c =>
    simp only [step, handle_keys_up, Option.some.injEq] at hs
    split_ifs at hs <;> (subst hs; exact h)

/-- Every sequence of events preserves `PlayerInv`. -/
theorem run_inv (es : List Event) (s t : GameState) (h : PlayerInv s) (hs : run s es = some t) :
    PlayerInv t := by
  induction es generalizing s with
  | nil => simp only [run, Option.some.injEq] at hs; subst hs; exact h
  | cons e es ih =>
    rw [run] at hs
    cases hstep : step s e with
    | none => rw [hstep] at hs; simp at hs
    | some u =>
      rw [hstep] at hs
      exact ih u (step_inv s u e h hstep) hs

/-- C1, as stated, fails: after `init`, the display callback, a key-down of `h`
and eleven frame ticks the player is at x = -1501867/8192 (about -183.33337),
to the left of the left boundary -175. -/
theorem player_x_leaves_bounds :
    run init overshoot_events = some overshoot_state ∧
      left_bound overshoot_state = -175 ∧
      overshoot_state.player.center.x = -1501867 / 8192 ∧
      ¬ (left_bound overshoot_state ≤ overshoot_state.player.center.x) := by
  refine ⟨overshoot_run, overshoot_facts.2.1, overshoot_facts.1, ?_⟩
  rw [overshoot_facts.1, overshoot_facts.2.1]
  norm_num

/-- C1 (amended): in every state reachable from `init` by any sequence of
events, the two boundaries are -175 and 175, the step is the binary32 value
4369067/262144 that `init` stores, and the player's x lies within one
`player_step_dist` of the interval between the boundaries; more precisely it
is one of the 23 values of `player_grid`, of absolute value at most
1501867/8192. -/
theorem player_x_within_one_step (s : GameState) (h : Reachable s) :
    left_bound s = -175 ∧ right_bound s = 175 ∧ s.player_step_dist = 4369067 / 262144 ∧
      left_bound s - s.player_step_dist ≤ s.player.center.x ∧
      s.player.center.x ≤ right_bound s + s.player_step_dist ∧
      s.player.center.x ∈ player_grid ∧
      -1501867 / 8192 ≤ s.player.center.x ∧ s.player.center.x ≤ 1501867 / 8192 := by
  obtain ⟨es, hes⟩ := h
  obtain ⟨h0, h1, h2, h3⟩ := run_inv es init s init_inv hes
  have hg := player_grid_closed s.player.center.x h3
  have hl : left_bound s = -175 := by
    rw [left_bound, h0, h1, bounds_value.1]
  have hr : right_bound s = 175 := by
    rw [right_bound, h0, h1, bounds_value.2]
  refine ⟨hl, hr, h2, ?_, ?_, h3, hg.2.2.2.2.1, hg.2.2.2.2.2⟩
  · rw [hl, h2]; exact hg.2.2.1
  · rw [hr, h2]; exact hg.2.2.2.1

/-- The amended C1 at the state reached by eleven ticks to the left. -/
theorem player_x_within_one_step_witness :
    Reachable overshoot_state ∧
      left_bound overshoot_state - overshoot_state.player_step_dist
        ≤ overshoot_state.player.center.x ∧
      -1501867 / 8192 ≤ overshoot_state.player.center.x :=
  ⟨overshoot_reachable,
    (player_x_within_one_step overshoot_state overshoot_reachable).2.2.2.1,
    (player_x_within_one_step overshoot_state overshoot_reachable).2.2.2.2.2.2.1⟩

/-- C2, as stated, fails: with the player exactly on the left boundary and
moving left, the guard `>=` of `update_player` passes and the player moves to
-12561067/65536 (about -191.66667); the same on the right boundary with the
guard `<=`. -/
theorem update_player_moves_at_boundary :
    (at_left_bound.player.center.x = left_bound at_left_bound ∧
      at_left_bound.player.movement = 1 ∧
      (update_player at_left_bound).player.center.x = -12561067 / 65536 ∧
      (update_player at_left_bound).player.center.x ≠ at_left_bound.player.center.x) ∧
    (at_right_bound.player.center.x = right_bound at_right_bound ∧
      at_right_bound.player.movement = 2 ∧
      (update_player at_right_bound).player.center.x = 12561067 / 65536 ∧
      (update_player at_right_bound).player.center.x ≠ at_right_bound.player.center.x) := by
  decide!

/-- C2 (amended): when the player is strictly beyond the left boundary and the
movement is Left, one `update_player` call leaves the state unchanged, and
symmetrically strictly beyond the right boundary with movement Right; exactly
on a boundary the guard passes and the player moves one `player_step_dist`
further out (the difference and the sum being rounded to `float`). -/
theorem update_player_guard (s : GameState) :
    (s.player.movement = 1 → s.player.center.x < left_bound s → update_player s = s) ∧
    (s.player.movement = 2 → s.player.center.x > right_bound s → update_player s = s) ∧
    (s.player.movement = 1 → s.player.center.x = left_bound s →
      (update_player s).player.center.x = fsub (left_bound s) s.player_step_dist) ∧
    (s.player.movement = 2 → s.player.center.x = right_bound s →
      (update_player s).player.center.x = fadd (right_bound s) s.player_step_dist) := by
  refine ⟨?_, ?_, ?_, ?_⟩
  · intro hm hx
    have hx2 : ¬ (s.player.center.x ≥
        fadd (fsub s.origin.x (i2f (Int.tdiv canvas_width 2))) s.player.size) := not_le.mpr hx
    simp [update_player, hm, hx2]
  · intro hm hx
    have hx2 : ¬ (s.player.center.x ≤
        fsub (fadd s.origin.x (i2f (Int.tdiv canvas_width 2))) s.player.size) := not_le.mpr hx
    simp [update_player, hm, hx2]
  · intro hm hx
    have hx2 : s.player.center.x ≥
        fadd (fsub s.origin.x (i2f (Int.tdiv canvas_width 2))) s.player.size := le_of_eq hx.symm
    simp only [update_player, hm, hx2, and_self, if_true]
    rw [hx]
  · intro hm hx
    have hx2 : s.player.center.x ≤
        fsub (fadd s.origin.x (i2f (Int.tdiv canvas_width 2))) s.player.size := le_of_eq hx
    have h21 : ¬ ((2 : Int) = 1) := by decide
    simp only [update_player, hm, hx2, h21, false_and, and_self, if_true, if_false]
    rw [hx]

/-- The amended C2 at a player beyond the left boundary (x = -180) and on it. -/
theorem update_player_guard_witness :
    update_player beyond_left_bound = beyond_left_bound ∧
      (update_player at_left_bound).player.center.x
        = fsub (left_bound at_left_bound) at_left_bound.player_step_dist :=
  ⟨(update_player_guard beyond_left_bound).1 rfl (by decide!),
    (update_player_guard at_left_bound).2.2.1 rfl (by decide!)⟩

/-! ### The enemy and the bottom edge (C3) -/

/-- C3, as stated, fails in its last part: a live enemy at height -182.5 has its
lower edge at -195, above the bottom edge -200 by 5, which is less than
`enemy_step_dist` (about 5.00000048); the decrement -182.5 - 5.00000048 is
rounded to the `float` -187.5, the new lower edge is -200, not strictly below
the bottom edge, and `is_game_over` is still 0 after the call. -/
theorem update_enemy_rounded_decrement :
    near_bottom_state.enemy.is_alive ≠ 0 ∧ near_bottom_state.is_game_over = 0 ∧
      near_bottom_state.enemy_step_dist = 10485761 / 2097152 ∧
      bottom_edge near_bottom_state = -200 ∧
      near_bottom_state.enemy.center.y - near_bottom_state.enemy.size / 2 = -195 ∧
      lower_edge near_bottom_state near_bottom_state.enemy.center.y = -195 ∧
      bottom_edge near_bottom_state
        ≤ near_bottom_state.enemy.center.y - near_bottom_state.enemy.size / 2 ∧
      near_bottom_state.enemy.center.y - near_bottom_state.enemy.size / 2
        < bottom_edge near_bottom_state + near_bottom_state.enemy_step_dist ∧
      (update_enemy near_bottom_state).enemy.center.y = -375 / 2 ∧
      (update_enemy near_bottom_state).is_game_over = 0 := by
  decide!

/-- C3 (amended): `update_enemy` leaves a state with a dead enemy unchanged; for
a live enemy it stores the rounded difference `center.y - enemy_step_dist` and
sets `is_game_over` to 1 exactly when the lower edge computed from that stored
height is strictly below the bottom edge of the canvas, and otherwise keeps
`is_game_over`.  In particular a live enemy whose lower edge is at or above
the bottom edge and whose lower edge after the rounded decrement is strictly
below it has not crossed before the call and is game-over after one call; the
program's state 79 ticks after a spawn is such a state, less than one
`enemy_step_dist` above the bottom edge. -/
theorem update_enemy_game_over (s : GameState) :
    (s.enemy.is_alive = 0 → update_enemy s = s) ∧
    (s.enemy.is_alive ≠ 0 →
      (update_enemy s).enemy.center.y = fsub s.enemy.center.y s.enemy_step_dist) ∧
    (s.enemy.is_alive ≠ 0 →
      lower_edge s (fsub s.enemy.center.y s.enemy_step_dist) < bottom_edge s →
      (update_enemy s).is_game_over = 1) ∧
    (¬ (s.enemy.is_alive ≠ 0 ∧
        lower_edge s (fsub s.enemy.center.y s.enemy_step_dist) < bottom_edge s) →
      (update_enemy s).is_game_over = s.is_game_over) ∧
    (s.enemy.is_alive ≠ 0 → s.is_game_over = 0 →
      bottom_edge s ≤ lower_edge s s.enemy.center.y →
      lower_edge s (fsub s.enemy.center.y s.enemy_step_dist) < bottom_edge s →
      ¬ (lower_edge s s.enemy.center.y < bottom_edge s) ∧
        s.is_game_over ≠ 1 ∧ (update_enemy s).is_game_over = 1) ∧
    (tick79_state.enemy.is_alive ≠ 0 ∧ tick79_state.is_game_over = 0 ∧
      bottom_edge tick79_state ≤ lower_edge tick79_state tick79_state.enemy.center.y ∧
      lower_edge tick79_state tick79_state.enemy.center.y
        < bottom_edge tick79_state + tick79_state.enemy_step_dist ∧
      (update_enemy tick79_state).is_game_over = 1) := by
  have hset : s.enemy.is_alive ≠ 0 →
      lower_edge s (fsub s.enemy.center.y s.enemy_step_dist) < bottom_edge s →
      (update_enemy s).is_game_over = 1 := by
    intro ha hc
    simp only [lower_edge, bottom_edge] at hc
    simp [update_enemy, ha, hc]
  refine ⟨?_, ?_, hset, ?_, ?_, ?_⟩
  · intro h
    simp [update_enemy, h]
  · intro ha
    simp only [update_enemy, ha, ne_eq, not_false_eq_true, if_true]
    split_ifs <;> rfl
  · intro h
    simp only [lower_edge, bottom_edge] at h
    simp only [update_enemy]
    split_ifs with ha hc
    · exact absurd ⟨ha, hc⟩ h
    · rfl
    · rfl
  · intro ha hg hlo hc
    exact ⟨not_lt.mpr hlo, by rw [hg]; decide, hset ha hc⟩
  · decide!

/-! ### The laser (C4, C5, C6) -/

/-- Incrementing an `int` below `INT_MAX` does not wrap. -/
theorem wrap32_succ (z : Int) (hlo : INT_MIN ≤ z) (hhi : z < INT_MAX) :
    wrap32 (z + 1) = z + 1 := by
  unfold INT_MIN at hlo
  unfold INT_MAX at hhi
  unfold wrap32
  omega

theorem wrap32_succ_le (z : Int) (hlo : INT_MIN ≤ z) : wrap32 (z + 1) ≤ z + 1 := by
  unfold INT_MIN at hlo
  unfold wrap32
  omega

/-- The edges of the hitbox of an enemy of size 25 at an integer x between -187
and 187 (every position `spawn_enemy` produces from the bounds of `init`) are
computed without rounding error. -/
theorem hitbox_edges_exact :
    ∀ k : Int, -187 ≤ k → k ≤ 187 →
      fadd (k : ℚ) (fdiv 25 (i2f 2)) = (k : ℚ) + 25 / 2 ∧
      fsub (k : ℚ) (fdiv 25 (i2f 2)) = (k : ℚ) - 25 / 2 := by
  decide!

/-- The edges of the hitbox of an enemy of size 25 at x = 100. -/
theorem hitbox_edges_100 :
    fadd 100 (fdiv 25 (i2f 2)) = 225 / 2 ∧ fsub 100 (fdiv 25 (i2f 2)) = 175 / 2 := by
  decide!

/-- C4: for a score in the range where `player_score++` does not overflow,
`test_hit` registers a hit exactly when the player's x is strictly between the
two edges `enemy.center.x - enemy.size/2` and `enemy.center.x + enemy.size/2`
as the code computes them in `float`; a hit marks the enemy not alive and adds
exactly 1 to the score, a miss leaves the state unchanged.  For an enemy of
size 25 at an integer x between -187 and 187 the edges are the exact ones.  An
enemy at x = 100 of size 25 is hit from x = 100 and not from x = 113. -/
theorem test_hit_spec (s : GameState) (hlo : INT_MIN ≤ s.player_score)
    (hhi : s.player_score < INT_MAX) :
    ((fsub s.enemy.center.x (fdiv s.enemy.size (i2f 2)) < s.player.center.x ∧
        s.player.center.x < fadd s.enemy.center.x (fdiv s.enemy.size (i2f 2))) →
      test_hit s =
        { s with
          enemy := { s.enemy with is_alive := 0 }
          player_score := s.player_score + 1 }) ∧
    (¬ (fsub s.enemy.center.x (fdiv s.enemy.size (i2f 2)) < s.player.center.x ∧
        s.player.center.x < fadd s.enemy.center.x (fdiv s.enemy.size (i2f 2))) →
      test_hit s = s) ∧
    ((test_hit s).player_score = s.player_score + 1 ↔
      (fsub s.enemy.center.x (fdiv s.enemy.size (i2f 2)) < s.player.center.x ∧
        s.player.center.x < fadd s.enemy.center.x (fdiv s.enemy.size (i2f 2)))) ∧
    (∀ k : Int, -187 ≤ k → k ≤ 187 → s.enemy.center.x = (k : ℚ) → s.enemy.size = 25 →
      ((test_hit s).player_score = s.player_score + 1 ↔
        ((k : ℚ) - 25 / 2 < s.player.center.x ∧ s.player.center.x < (k : ℚ) + 25 / 2))) ∧
    (s.enemy.center.x = 100 → s.enemy.size = 25 → s.player.center.x = 100 →
      (test_hit s).enemy.is_alive = 0 ∧ (test_hit s).player_score = s.player_score + 1) ∧
    (s.enemy.center.x = 100 → s.enemy.size = 25 → s.player.center.x = 113 →
      test_hit s = s) := by
  have hw := wrap32_succ s.player_score hlo hhi
  have hyes : (fsub s.enemy.center.x (fdiv s.enemy.size (i2f 2)) < s.player.center.x ∧
        s.player.center.x < fadd s.enemy.center.x (fdiv s.enemy.size (i2f 2))) →
      test_hit s =
        { s with
          enemy := { s.enemy with is_alive := 0 }
          player_score := s.player_score + 1 } := by
    intro h
    have h2 : s.player.center.x < fadd s.enemy.center.x (fdiv s.enemy.size (i2f 2)) ∧
        s.player.center.x > fsub s.enemy.center.x (fdiv s.enemy.size (i2f 2)) := ⟨h.2, h.1⟩
    simp only [test_hit, h2, and_self, if_true, add_point, kill_enemy, hw]
  have hno : ¬ (fsub s.enemy.center.x (fdiv s.enemy.size (i2f 2)) < s.player.center.x ∧
        s.player.center.x < fadd s.enemy.center.x (fdiv s.enemy.size (i2f 2))) →
      test_hit s = s := by
    intro h
    have h2 : ¬ (s.player.center.x < fadd s.enemy.center.x (fdiv s.enemy.size (i2f 2)) ∧
        s.player.center.x > fsub s.enemy.center.x (fdiv s.enemy.size (i2f 2))) :=
      fun c => h ⟨c.2, c.1⟩
    simp only [test_hit, h2, if_false]
  have hiff : (test_hit s).player_score = s.player_score + 1 ↔
      (fsub s.enemy.center.x (fdiv s.enemy.size (i2f 2)) < s.player.center.x ∧
        s.player.center.x < fadd s.enemy.center.x (fdiv s.enemy.size (i2f 2))) := by
    constructor
    · intro h
      by_contra hc
      rw [hno hc] at h
      omega
    · intro h
      rw [hyes h]
  refine ⟨hyes, hno, hiff, ?_, ?_, ?_⟩
  · intro k hk1 hk2 hx hsz
    rw [hiff, hx, hsz, (hitbox_edges_exact k hk1 hk2).1, (hitbox_edges_exact k hk1 hk2).2]
  · intro hx hsz hp
    have h : fsub s.enemy.center.x (fdiv s.enemy.size (i2f 2)) < s.player.center.x ∧
        s.player.center.x < fadd s.enemy.center.x (fdiv s.enemy.size (i2f 2)) := by
      rw [hx, hsz, hp, hitbox_edges_100.1, hitbox_edges_100.2]; norm_num
    rw [hyes h]
    exact ⟨rfl, rfl⟩
  · intro hx hsz hp
    apply hno
    rw [hx, hsz, hp, hitbox_edges_100.1, hitbox_edges_100.2]
    norm_num

/-- C4 at the two states of the claim: the shot from x = 100 kills the enemy
and brings the score from 0 to 1, the shot from x = 113 changes nothing. -/
theorem test_hit_spec_witness :
    (INT_MIN ≤ hit_state.player_score ∧ hit_state.player_score < INT_MAX) ∧
      ((test_hit hit_state).enemy.is_alive = 0 ∧
        (test_hit hit_state).player_score = hit_state.player_score + 1) ∧
      test_hit miss_state = miss_state :=
  ⟨⟨by decide, by decide⟩,
    (test_hit_spec hit_state (by decide) (by decide)).2.2.2.2.1 rfl rfl rfl,
    (test_hit_spec miss_state (by decide) (by decide)).2.2.2.2.2 rfl rfl rfl⟩

theorem first_shot_run : run init first_shot_events = some dead_enemy_state := by
  have h1 : step init (Event.display 187 0) = some (initial_draw 187 0 init) := rfl
  have h2 : step (initial_draw 187 0 init) (Event.key_down ' ')
      = some (activate_laser (initial_draw 187 0 init)) := by
    simp [step, handle_keys]
  have h3 : step (activate_laser (initial_draw 187 0 init)) Event.laser_off
      = some dead_enemy_state := rfl
  rw [first_shot_events, run, h1, Option.bind, run, h2, Option.bind, run, h3]
  rfl

/-- C5 fails on the code: `test_hit` never reads `enemy.is_alive`.  After the
first shot has killed the enemy (score 1, enemy dead at x = 0, player at
x = 0), the next `activate_laser` scores again: the score becomes 2. -/
theorem dead_enemy_hit_again :
    run init first_shot_events = some dead_enemy_state ∧
      dead_enemy_state.enemy.is_alive = 0 ∧
      dead_enemy_state.player_score = 1 ∧
      (test_hit dead_enemy_state).player_score = 2 ∧
      (activate_laser dead_enemy_state).player_score = 2 := by
  refine ⟨first_shot_run, ?_⟩
  decide!

/-- C6: two calls of `activate_laser` in a row give the same state as one: the
second runs no hit test, changes no score and registers no timer, so the score
rises by at most 1 over the two calls; after `disable_laser` the next
`activate_laser` sets the flag, runs `test_hit` and registers the 150 ms
timer. -/
theorem activate_laser_twice (s : GameState) :
    activate_laser (activate_laser s) = activate_laser s ∧
    (activate_laser (activate_laser s)).timers = (activate_laser s).timers ∧
    (activate_laser (activate_laser s)).player_score = (activate_laser s).player_score ∧
    (INT_MIN ≤ s.player_score →
      (activate_laser (activate_laser s)).player_score ≤ s.player_score + 1) ∧
    activate_laser (disable_laser s) =
      glutTimerFunc 150 Callback.disable_laser 1 (test_hit { s with is_laser_firing := 1 }) := by
  have hfire : ∀ t : GameState, (test_hit t).is_laser_firing = t.is_laser_firing := by
    intro t
    unfold test_hit
    split_ifs <;> rfl
  have htwice : activate_laser (activate_laser s) = activate_laser s := by
    by_cases h : s.is_laser_firing = 0
    · have h1 : (activate_laser s).is_laser_firing = 1 := by
        simp only [activate_laser, h, if_true, glutTimerFunc, hfire]
      have h2 : ¬ ((activate_laser s).is_laser_firing = 0) := by rw [h1]; decide
      generalize activate_laser s = t at h2
      simp only [activate_laser, h2, if_false]
    · simp only [activate_laser, h, if_false]
  have hscore : ∀ t : GameState, INT_MIN ≤ t.player_score →
      (test_hit t).player_score ≤ t.player_score + 1 := by
    intro t ht
    unfold test_hit
    split_ifs
    · exact wrap32_succ_le t.player_score ht
    · exact le_of_lt (Int.lt_succ t.player_score)
  refine ⟨htwice, by rw [htwice], by rw [htwice], ?_, ?_⟩
  · intro hlo
    rw [htwice]
    by_cases h : s.is_laser_firing = 0
    · simp only [activate_laser, h, if_true, glutTimerFunc]
      exact hscore { s with is_laser_firing := 1 } hlo
    · simp only [activate_laser, h, if_false]
      exact le_of_lt (Int.lt_succ s.player_score)
  · have h150 : truncQ (dmul (i2d 1000) (f64 (15 / 100))) = 150 := by decide!
    simp only [activate_laser, disable_laser, if_true, h150]

/-! ### The keyboard (C7) -/

/-- C7 fails on the code for the key `H`: the first test of `handle_keys` is
`c == 'h' || c == 'h'`, so `H` reaches the final implicit else and the state,
`player.movement` included, is unchanged (from `init`, movement stays 0
instead of becoming 1).  The keys `h`, `l` and `L` do what the claim says. -/
theorem handle_keys_upper_h_ignored :
    (∀ (s : GameState) (x y : Int), handle_keys 'H' x y s = some s) ∧
    (handle_keys 'H' 0 0 init = some init ∧ init.player.movement = 0) ∧
    (∀ (s : GameState) (x y : Int),
      handle_keys 'h' x y s = some { s with player := { s.player with movement := 1 } }) ∧
    (∀ (s : GameState) (x y : Int),
      handle_keys 'l' x y s = some { s with player := { s.player with movement := 2 } }) ∧
    (∀ (s : GameState) (x y : Int),
      handle_keys 'L' x y s = some { s with player := { s.player with movement := 2 } }) := by
  refine ⟨?_, ⟨?_, rfl⟩, ?_, ?_, ?_⟩
  · intro s x y
    simp [handle_keys]
  · simp [handle_keys]
  · intro s x y
    simp [handle_keys]
  · intro s x y
    simp [handle_keys]
  · intro s x y
    simp [handle_keys]

/-! ### Spawning (C8) -/

/-- The spawn formula `rand() % (hi + 1 - lo) + lo` stays within `[lo, hi]` when
nothing overflows. -/
theorem spawn_formula (r lo hi : Int) (hr : 0 ≤ r) (h : lo ≤ hi) (hlo : INT_MIN ≤ lo)
    (hhi : hi < INT_MAX) (hw : hi - lo < INT_MAX) :
    lo ≤ wrap32 (Int.tmod r (wrap32 (wrap32 (hi + 1) - lo)) + lo) ∧
      wrap32 (Int.tmod r (wrap32 (wrap32 (hi + 1) - lo)) + lo) ≤ hi := by
  unfold INT_MIN at hlo
  unfold INT_MAX at hhi hw
  have e1 : wrap32 (hi + 1) = hi + 1 := by unfold wrap32; omega
  have e2 : wrap32 (hi + 1 - lo) = hi + 1 - lo := by unfold wrap32; omega
  have hd : 0 < hi + 1 - lo := by omega
  rw [e1, e2, Int.tmod_eq_emod hr (le_of_lt hd)]
  have m0 : 0 ≤ r % (hi + 1 - lo) := Int.emod_nonneg r (ne_of_gt hd)
  have m1 : r % (hi + 1 - lo) < hi + 1 - lo := Int.emod_lt_of_pos r hd
  generalize r % (hi + 1 - lo) = m at m0 m1
  have e3 : wrap32 (m + lo) = m + lo := by unfold wrap32; omega
  rw [e3]
  constructor <;> omega

/-- The highest bit found by `log2Fuel` is a bit of `n`. -/
theorem log2Fuel_le (f n : Nat) (hn : 1 ≤ n) : 2 ^ log2Fuel f n ≤ n := by
  induction f generalizing n with
  | zero => simpa [log2Fuel] using hn
  | succ k ih =>
    unfold log2Fuel
    split_ifs with h
    · simpa using hn
    · have h2 : 1 ≤ n / 2 := by omega
      have := ih (n / 2) h2
      rw [pow_succ]
      omega

/-- A natural number below `2 ^ 24` has its highest bit at position 23 at most. -/
theorem log2_le_23 (n : Nat) (h : n < 2 ^ 24) : log2 n ≤ 23 := by
  by_cases hn : 1 ≤ n
  · have h1 := log2Fuel_le n n hn
    have h2 : 2 ^ log2 n < 2 ^ 24 := lt_of_le_of_lt h1 h
    have := (Nat.pow_lt_pow_iff_right (by decide : 1 < 2)).mp h2
    omega
  · have h0 : n = 0 := by omega
    subst h0
    decide

theorem roundNE_one (m : Nat) : roundNE m 1 = m := by
  simp [roundNE, Nat.mod_one]

/-- An integer of absolute value below `2 ^ 24` is a `float`: its conversion is
exact. -/
theorem i2f_exact (z : Int) (h1 : -16777216 < z) (h2 : z < 16777216) : i2f z = (z : ℚ) := by
  have hn : z.natAbs < 2 ^ 24 := by omega
  have hl : floorLog2 z.natAbs 1 ≤ 23 := by
    have h23 := log2_le_23 z.natAbs hn
    have hone : log2 1 = 0 := by decide
    unfold floorLog2
    simp only [hone]
    split_ifs <;> omega
  unfold i2f f32 roundFloat
  simp only [Rat.num_intCast, Rat.den_intCast]
  have hu0 : max (floorLog2 z.natAbs 1 - (((24 : Nat) : Int) - 1)) (-149) ≤ 0 := by
    apply max_le
    · push_cast; omega
    · decide
  generalize max (floorLog2 z.natAbs 1 - (((24 : Nat) : Int) - 1)) (-149) = u at hu0
  have hnz : (z.natAbs : ℚ) = |(z : ℚ)| := by
    rw [Nat.cast_natAbs, Int.cast_abs]
  have hv : ∀ n : Nat,
      (if 0 ≤ u then ((roundNE n (1 * 2 ^ u.toNat) * 2 ^ u.toNat : Nat) : ℚ)
        else mkRat (roundNE (n * 2 ^ (-u).toNat) 1 : Nat) (2 ^ (-u).toNat))
      = (n : ℚ) := by
    intro n
    split_ifs with h
    · have hu : u = 0 := le_antisymm hu0 h
      subst hu
      simp [roundNE_one]
    · rw [roundNE_one, Rat.mkRat_eq_div]
      push_cast
      field_simp
  rw [hv, hnz]
  split_ifs with hneg
  · rw [abs_of_neg hneg, neg_neg]
  · rw [abs_of_nonneg (not_lt.mp hneg)]

theorem init_spawn_constants :
    init.enemy_min_x = -187 ∧ init.enemy_max_x = 187 ∧
      init.enemy_min_time = 2750 ∧ init.enemy_max_time = 3500 := by
  decide!

/-- C8: when the two values of `rand()` are non-negative, the bounds are
ordered and the `int` computations do not overflow, `spawn_enemy` stores into
`enemy.center.x` the conversion to `float` of an integer x in
[enemy_min_x, enemy_max_x], which is x itself when the bounds are below 2^24 in
absolute value, registers itself with an integer delay in
[enemy_min_time, enemy_max_time], marks the enemy alive and puts it at height
`enemy_start.y`. -/
theorem spawn_enemy_ranges (r1 r2 : Int) (s : GameState) (h1 : 0 ≤ r1) (h2 : 0 ≤ r2)
    (hx : s.enemy_min_x ≤ s.enemy_max_x) (ht : s.enemy_min_time ≤ s.enemy_max_time)
    (hxlo : INT_MIN ≤ s.enemy_min_x) (hxhi : s.enemy_max_x < INT_MAX)
    (hxw : s.enemy_max_x - s.enemy_min_x < INT_MAX)
    (htlo : 0 ≤ s.enemy_min_time) (hthi : s.enemy_max_time < INT_MAX) :
    ∃ x t : Int,
      (s.enemy_min_x ≤ x ∧ x ≤ s.enemy_max_x) ∧
      (spawn_enemy r1 r2 s).enemy.center.x = i2f x ∧
      (-16777216 < s.enemy_min_x → s.enemy_max_x < 16777216 →
        (spawn_enemy r1 r2 s).enemy.center.x = (x : ℚ)) ∧
      (s.enemy_min_time ≤ t ∧ t ≤ s.enemy_max_time) ∧
      (spawn_enemy r1 r2 s).timers = s.timers ++ [⟨t, Callback.spawn_enemy, 1⟩] ∧
      (spawn_enemy r1 r2 s).enemy.is_alive = 1 ∧
      (spawn_enemy r1 r2 s).enemy.center.y = s.enemy_start.y := by
  have hX := spawn_formula r1 s.enemy_min_x s.enemy_max_x h1 hx hxlo hxhi hxw
  have htlo2 : INT_MIN ≤ s.enemy_min_time := le_trans (by decide) htlo
  have htw : s.enemy_max_time - s.enemy_min_time < INT_MAX := by omega
  have hT := spawn_formula r2 s.enemy_min_time s.enemy_max_time h2 ht htlo2 hthi htw
  refine ⟨_, _, hX, rfl, ?_, hT, ?_, rfl, rfl⟩
  · intro ha hb
    exact i2f_exact _ (lt_of_lt_of_le ha hX.1) (lt_of_le_of_lt hX.2 hb)
  · have hu : ∀ t : Int, s.enemy_min_time ≤ t → t ≤ s.enemy_max_time → toU32 t = t := by
      intro t ha hb
      unfold INT_MAX at hthi
      unfold toU32
      omega
    simp only [spawn_enemy, glutTimerFunc, hu _ hT.1 hT.2]

/-- C8 at `init` with `rand()` giving 12345 and 6789: the enemy's x is an
integer in [-187, 187] and the delay an integer in [2750, 3500]. -/
theorem spawn_enemy_ranges_witness :
    ∃ x t : Int,
      (-187 ≤ x ∧ x ≤ 187) ∧
      (spawn_enemy 12345 6789 init).enemy.center.x = (x : ℚ) ∧
      (2750 ≤ t ∧ t ≤ 3500) ∧
      (spawn_enemy 12345 6789 init).timers = init.timers ++ [⟨t, Callback.spawn_enemy, 1⟩] ∧
      (spawn_enemy 12345 6789 init).enemy.is_alive = 1 ∧
      (spawn_enemy 12345 6789 init).enemy.center.y = init.enemy_start.y := by
  obtain ⟨c1, c2, c3, c4⟩ := init_spawn_constants
  have h := spawn_enemy_ranges 12345 6789 init (by decide) (by decide)
    (by rw [c1, c2]; decide) (by rw [c3, c4]; decide) (by rw [c1]; decide)
    (by rw [c2]; decide) (by rw [c1, c2]; decide) (by rw [c3]; decide) (by rw [c4]; decide)
  rw [c1, c2, c3, c4] at h
  obtain ⟨x, t, hx, _, hxe, ht, htm, ha, hy⟩ := h
  exact ⟨x, t, hx, hxe (by decide) (by decide), ht, htm, ha, hy⟩

/-! ### The frame callback and the descent of the enemy (C9, C10) -/

theorem update_enemy_timers (s : GameState) :
    (update_enemy s).timers = s.timers ∧ (update_enemy s).frame_rate = s.frame_rate := by
  simp only [update_enemy]
  split_ifs <;> exact ⟨rfl, rfl⟩

theorem update_player_timers (s : GameState) :
    (update_player s).timers = s.timers ∧ (update_player s).frame_rate = s.frame_rate ∧
      (update_player s).is_game_over = s.is_game_over ∧ (update_player s).enemy = s.enemy := by
  unfold update_player
  split_ifs <;> exact ⟨rfl, rfl, rfl, rfl⟩

/-- A tick entered with `is_game_over` at 0 leaves the flag and the enemy as
`update_enemy` leaves them. -/
theorem animate_enemy (s : GameState) (hg : s.is_game_over = 0) :
    (animate s).is_game_over = (update_enemy s).is_game_over ∧
      (animate s).enemy = (update_enemy s).enemy := by
  simp only [animate, hg, if_true, glutTimerFunc, draw_all_objects,
    (update_player_timers (update_enemy s)).2.2.1, (update_player_timers (update_enemy s)).2.2.2,
    and_self]

/-- A tick with a live enemy that does not cross the bottom edge and a player
at rest: the enemy moves one step down and one frame timer is registered. -/
theorem animate_descend (s : GameState) (hg : s.is_game_over = 0) (ha : s.enemy.is_alive ≠ 0)
    (hc : ¬ (fsub (fsub s.enemy.center.y s.enemy_step_dist) (fdiv s.enemy.size (i2f 2))
      < fsub s.origin.y (i2f (Int.tdiv canvas_height 2))))
    (hm : s.player.movement = 0) :
    animate s =
      { s with
        enemy :=
          { s.enemy with
            center := { s.enemy.center with y := fsub s.enemy.center.y s.enemy_step_dist } }
        timers :=
          s.timers ++ [⟨toU32 (truncQ (fmul (i2f 1000) s.frame_rate)), Callback.animate, 1⟩] } := by
  simp [animate, draw_all_objects, update_enemy, update_player, glutTimerFunc, hg, ha, hc, hm]

/-- The values that `init` stores and the tests of the descent use. -/
theorem init_descent_constants :
    init.enemy_step_dist = enemy_step ∧ init.enemy_start.y = 425 / 2 ∧
      toU32 (truncQ (fmul (i2f 1000) init.frame_rate)) = 33 ∧
      fdiv init.enemy.size (i2f 2) = 25 / 2 ∧
      fsub init.origin.y (i2f (Int.tdiv canvas_height 2)) = -200 := by
  decide!

/-- The heights of the descent: up to tick 79 the lower edge is not below the
bottom edge, at tick 80 it is; each height is strictly below the one before,
between `212.5 - n * enemy_step` and `212.5 - n * 5`, and equal to the latter up
to tick 40. -/
theorem descent_y_facts :
    (∀ n : Nat, n ≤ 79 →
      ¬ (fsub (descent_y n) (25 / 2) < -200) ∧
      descent_y (n + 1) < descent_y n ∧
      425 / 2 - (n : ℚ) * enemy_step ≤ descent_y n ∧
      descent_y n ≤ 425 / 2 - (n : ℚ) * 5 ∧
      (n ≤ 40 → descent_y n = 425 / 2 - (n : ℚ) * 5)) ∧
    fsub (descent_y 80) (25 / 2) < -200 ∧
    descent_y 50 = -9830401 / 262144 ∧ descent_y 79 = -11960321 / 65536 := by
  decide!

/-- One tick leads from `descent_state n` to `descent_state (n + 1)` below 79. -/
theorem descent_step (r1 r2 : Int) (n : Nat) (hn : n < 79) :
    animate (descent_state r1 r2 n) = descent_state r1 r2 (n + 1) := by
  obtain ⟨c1, _, c3, c4, c5⟩ := init_descent_constants
  have hg : (descent_state r1 r2 n).is_game_over = 0 := rfl
  have ha : (descent_state r1 r2 n).enemy.is_alive ≠ 0 := by
    simp [descent_state, spawn_enemy, glutTimerFunc]
  have hm : (descent_state r1 r2 n).player.movement = 0 := rfl
  have hstep : (descent_state r1 r2 n).enemy_step_dist = enemy_step := c1
  have hy : (descent_state r1 r2 n).enemy.center.y = descent_y n := rfl
  have hsz : fdiv (descent_state r1 r2 n).enemy.size (i2f 2) = 25 / 2 := c4
  have hbot : fsub (descent_state r1 r2 n).origin.y (i2f (Int.tdiv canvas_height 2)) = -200 := c5
  have hfr : toU32 (truncQ (fmul (i2f 1000) (descent_state r1 r2 n).frame_rate)) = 33 := c3
  have hc : ¬ (fsub (fsub (descent_state r1 r2 n).enemy.center.y
      (descent_state r1 r2 n).enemy_step_dist) (fdiv (descent_state r1 r2 n).enemy.size (i2f 2))
      < fsub (descent_state r1 r2 n).origin.y (i2f (Int.tdiv canvas_height 2))) := by
    rw [hy, hstep, hsz, hbot]
    exact (descent_y_facts.1 (n + 1) (by omega)).1
  have hyn : fsub (descent_state r1 r2 n).enemy.center.y (descent_state r1 r2 n).enemy_step_dist
      = descent_y (n + 1) := by
    rw [hy, hstep]
    rfl
  rw [animate_descend _ hg ha hc hm, hfr, hyn]
  simp only [descent_state, List.replicate_succ', List.append_assoc]

/-- The first 79 ticks after the first spawn, in closed form. -/
theorem ticks_descent (r1 r2 : Int) (n : Nat) (hn : n ≤ 79) :
    ticks n (spawn_enemy r1 r2 init) = descent_state r1 r2 n := by
  induction n with
  | zero =>
    have hy : (spawn_enemy r1 r2 init).enemy.center.y = 425 / 2 := init_descent_constants.2.1
    simp only [ticks, descent_state, descent_y, List.replicate_zero, List.append_nil, ← hy]
  | succ k ih =>
    rw [ticks, ih (Nat.le_of_succ_le hn)]
    exact descent_step r1 r2 k hn

theorem tick79_run : run init tick79_events = some tick79_state := by
  have h1 : step init (Event.spawn 0 0) = some (spawn_enemy 0 0 init) := rfl
  rw [tick79_events, run, h1, Option.bind]
  exact run_ticks 79 (spawn_enemy 0 0 init)

/-- C9, as stated, fails: 79 ticks after the first spawn the game is not over;
the next tick's `update_enemy` sets `is_game_over`, and that same tick still
registers the next frame timer (33 ms). -/
theorem animate_rearms_when_game_over_set :
    run init tick79_events = some tick79_state ∧
      tick79_state.is_game_over = 0 ∧
      (update_enemy (draw_all_objects tick79_state)).is_game_over = 1 ∧
      (animate tick79_state).is_game_over = 1 ∧
      (animate tick79_state).timers
        = tick79_state.timers ++ [⟨33, Callback.animate, 1⟩] := by
  refine ⟨tick79_run, ?_⟩
  decide!

/-- C9 (amended): a frame tick entered with `is_game_over` false runs
`update_enemy` and `update_player` and registers exactly one further frame
timer, also when its `update_enemy` sets `is_game_over`; its `is_game_over` is
the one `update_enemy` leaves; a tick entered with `is_game_over` true changes
nothing and registers nothing. -/
theorem animate_rearm (s : GameState) :
    (s.is_game_over = 0 →
      animate s =
          { update_player (update_enemy s) with
            timers :=
              s.timers ++
                [⟨toU32 (truncQ (fmul (i2f 1000) s.frame_rate)), Callback.animate, 1⟩] } ∧
        (animate s).timers
          = s.timers ++ [⟨toU32 (truncQ (fmul (i2f 1000) s.frame_rate)), Callback.animate, 1⟩] ∧
        (animate s).is_game_over = (update_enemy s).is_game_over) ∧
    (s.is_game_over ≠ 0 → animate s = s) := by
  constructor
  · intro h
    have ht : (update_player (update_enemy s)).timers = s.timers := by
      rw [(update_player_timers (update_enemy s)).1, (update_enemy_timers s).1]
    have hf : (update_player (update_enemy s)).frame_rate = s.frame_rate := by
      rw [(update_player_timers (update_enemy s)).2.1, (update_enemy_timers s).2]
    have he : animate s =
        { update_player (update_enemy s) with
          timers :=
            s.timers ++
              [⟨toU32 (truncQ (fmul (i2f 1000) s.frame_rate)), Callback.animate, 1⟩] } := by
      simp only [animate, h, if_true, glutTimerFunc, draw_all_objects, ht, hf]
    refine ⟨he, ?_, (animate_enemy s h).1⟩
    rw [he]
  · intro h
    simp only [animate, h, if_false, draw_game_over]

/-- C10, as stated, fails: `init` stores `enemy_step_dist` as the `float`
10485761/2097152, not 5; 50 ticks after the spawn the enemy is at
-9830401/262144, not at 212.5 - 250; and the 80th tick, not the 81st, sets
`is_game_over`. -/
theorem game_over_at_tick_80 :
    (spawn_enemy 0 0 init).enemy_step_dist = 10485761 / 2097152 ∧
      (spawn_enemy 0 0 init).enemy_step_dist ≠ 5 ∧
      (ticks 50 (spawn_enemy 0 0 init)).enemy.center.y = -9830401 / 262144 ∧
      (ticks 50 (spawn_enemy 0 0 init)).enemy.center.y
        ≠ (spawn_enemy 0 0 init).enemy_start.y
          - ((50 : Nat) : ℚ) * (spawn_enemy 0 0 init).enemy_step_dist ∧
      (ticks 80 (spawn_enemy 0 0 init)).is_game_over = 1 ∧
      ¬ ((ticks 80 (spawn_enemy 0 0 init)).is_game_over = 0) := by
  decide!

/-- C10 (amended): from `init` followed by one `spawn_enemy`, with no key event
and no other spawn, `enemy_start.y` is 212.5 and `enemy_step_dist` is the
`float` 10485761/2097152; for every n up to 79, after n frame ticks the enemy's
height is `descent_y n`, the n-fold rounded decrement of `enemy_start.y`, which
lies between `enemy_start.y - n * enemy_step_dist` and `enemy_start.y - n * 5`,
equals the latter for n up to 40 and is strictly above the height one tick
later; x is unchanged, the enemy is alive and the game is not over; the 80th
tick sets `is_game_over`. -/
theorem enemy_descent (r1 r2 : Int) (n : Nat) (hn : n ≤ 79) :
    (spawn_enemy r1 r2 init).enemy_start.y = 425 / 2 ∧
    (spawn_enemy r1 r2 init).enemy_step_dist = 10485761 / 2097152 ∧
    (ticks n (spawn_enemy r1 r2 init)).enemy.center.y = descent_y n ∧
    (spawn_enemy r1 r2 init).enemy_start.y
        - (n : ℚ) * (spawn_enemy r1 r2 init).enemy_step_dist
      ≤ (ticks n (spawn_enemy r1 r2 init)).enemy.center.y ∧
    (ticks n (spawn_enemy r1 r2 init)).enemy.center.y
      ≤ (spawn_enemy r1 r2 init).enemy_start.y - (n : ℚ) * 5 ∧
    (n ≤ 40 →
      (ticks n (spawn_enemy r1 r2 init)).enemy.center.y
        = (spawn_enemy r1 r2 init).enemy_start.y - (n : ℚ) * 5) ∧
    (ticks (n + 1) (spawn_enemy r1 r2 init)).enemy.center.y
      < (ticks n (spawn_enemy r1 r2 init)).enemy.center.y ∧
    (ticks n (spawn_enemy r1 r2 init)).enemy.center.x
      = (spawn_enemy r1 r2 init).enemy.center.x ∧
    (ticks n (spawn_enemy r1 r2 init)).enemy.is_alive = 1 ∧
    (ticks n (spawn_enemy r1 r2 init)).is_game_over = 0 ∧
    (ticks 80 (spawn_enemy r1 r2 init)).is_game_over = 1 := by
  obtain ⟨c1, c2, _, c4, c5⟩ := init_descent_constants
  have hy : (spawn_enemy r1 r2 init).enemy_start.y = 425 / 2 := c2
  have hd : (spawn_enemy r1 r2 init).enemy_step_dist = 10485761 / 2097152 := c1
  have hf := descent_y_facts.1 n hn
  have hnext : ∀ k : Nat,
      (animate (descent_state r1 r2 k)).enemy.center.y = descent_y (k + 1) := by
    intro k
    have ha : (descent_state r1 r2 k).enemy.is_alive ≠ 0 := by
      simp [descent_state, spawn_enemy, glutTimerFunc]
    have he := (animate_enemy (descent_state r1 r2 k) rfl).2
    have hu : (update_enemy (descent_state r1 r2 k)).enemy.center.y
        = fsub (descent_state r1 r2 k).enemy.center.y (descent_state r1 r2 k).enemy_step_dist := by
      simp only [update_enemy, ha, ne_eq, not_false_eq_true, if_true]
      split_ifs <;> rfl
    rw [he, hu]
    show fsub (descent_y k) init.enemy_step_dist = descent_y (k + 1)
    rw [c1]
    rfl
  have h80 : (ticks 80 (spawn_enemy r1 r2 init)).is_game_over = 1 := by
    rw [ticks, ticks_descent r1 r2 79 (le_refl 79), (animate_enemy _ rfl).1]
    have ha : (descent_state r1 r2 79).enemy.is_alive ≠ 0 := by
      simp [descent_state, spawn_enemy, glutTimerFunc]
    have hc : fsub (fsub (descent_state r1 r2 79).enemy.center.y
        (descent_state r1 r2 79).enemy_step_dist) (fdiv (descent_state r1 r2 79).enemy.size (i2f 2))
        < fsub (descent_state r1 r2 79).origin.y (i2f (Int.tdiv canvas_height 2)) := by
      have e1 : (descent_state r1 r2 79).enemy_step_dist = enemy_step := c1
      have e2 : fdiv (descent_state r1 r2 79).enemy.size (i2f 2) = 25 / 2 := c4
      have e3 : fsub (descent_state r1 r2 79).origin.y (i2f (Int.tdiv canvas_height 2))
          = -200 := c5
      have e4 : (descent_state r1 r2 79).enemy.center.y = descent_y 79 := rfl
      rw [e1, e2, e3, e4]
      exact descent_y_facts.2.1
    simp [update_enemy, ha, hc]
  have hsucc : (ticks (n + 1) (spawn_enemy r1 r2 init)).enemy.center.y = descent_y (n + 1) := by
    rw [ticks, ticks_descent r1 r2 n hn]
    exact hnext n
  rw [hsucc, ticks_descent r1 r2 n hn, hy, hd]
  refine ⟨rfl, rfl, rfl, ?_, hf.2.2.2.1, hf.2.2.2.2, hf.2.1, rfl, rfl, rfl, h80⟩
  exact hf.2.2.1

/-- The amended C10 at 50 ticks after a spawn whose `rand()` calls gave 0: the
enemy is at `descent_y 50`, at most 50 times 5 below its starting height, and
the game is not over. -/
theorem enemy_descent_witness :
    (50 : Nat) ≤ 79 ∧
      (ticks 50 (spawn_enemy 0 0 init)).enemy.center.y = descent_y 50 ∧
      descent_y 50 = -9830401 / 262144 ∧
      (ticks 50 (spawn_enemy 0 0 init)).enemy.center.y
        ≤ (spawn_enemy 0 0 init).enemy_start.y - ((50 : Nat) : ℚ) * 5 ∧
      (ticks 50 (spawn_enemy 0 0 init)).is_game_over = 0 :=
  ⟨by decide, (enemy_descent 0 0 50 (by decide)).2.2.1, descent_y_facts.2.2.1,
    (enemy_descent 0 0 50 (by decide)).2.2.2.2.1,
    (enemy_descent 0 0 50 (by decide)).2.2.2.2.2.2.2.2.2.1⟩

end Blaster
